import Mathlib

/-!
Verification of the room-designer AR furniture previewer core: a shallow
embedding of the storage helpers (`asyncStorageHelpers.ts`), the WebView
message bridge (`ARWebViewBridge.ts`) and the Zustand stores
(`useARStore.ts`, `useSceneStore.ts`), together with proofs of the
claimed properties.

Embedding conventions: TypeScript string-literal unions become inductive
types; JS numeric fields are embedded as `Nat` (timestamps, counts,
sizes) or `Int` (geometric components) — no verified claim computes with
the geometric values; `T | null` becomes `Option T`; a thrown exception
becomes the `Except.error` branch; `AsyncStorage` is modelled as the
`Option`-valued content of the single key a helper touches, together
with a flag recording whether the helper wrote the key back.
-/

namespace RoomDesigner

/-! ### core/constants/limits.ts -/

namespace MODEL_LIMITS

/-- Maximum number of models in library (FR-046). -/
def MAX_MODELS : Nat := 50

/-- Minimum photos for scan (FR-015). -/
def MIN_SCAN_PHOTOS : Nat := 20

/-- Recommended photos for scan (FR-011). -/
def RECOMMENDED_SCAN_PHOTOS : Nat := 25

/-- Maximum photos for scan (FR-011). -/
def MAX_SCAN_PHOTOS : Nat := 40

end MODEL_LIMITS

namespace SCENE_LIMITS

/-- Maximum number of saved scenes (FR-046). -/
def MAX_SCENES : Nat := 20

/-- Maximum objects per scene (FR-006). -/
def MAX_OBJECTS_PER_SCENE : Nat := 10

end SCENE_LIMITS

namespace AR_LIMITS

/-- Maximum objects in AR view (FR-006). -/
def MAX_PLACED_OBJECTS : Nat := 10

end AR_LIMITS

/-! ### core/types/model.types.ts -/

/-- Furniture category enumeration (FR-020). -/
inductive ModelCategory
  | CHAIR
  | TABLE
  | SOFA
  | CABINET
  | LAMP
  | CUSTOM
  deriving DecidableEq, Repr

/-- Axis-aligned bounding box for model dimensions. -/
structure BoundingBox where
  min : Int × Int × Int
  max : Int × Int × Int
  center : Int × Int × Int
  size : Int × Int × Int
  deriving DecidableEq, Repr

/-- Technical metadata extracted from the GLB file. -/
structure ModelMetadata where
  fileSize : Nat
  vertexCount : Nat
  textureResolution : Option String
  hasAnimations : Bool
  boundingBox : BoundingBox
  deriving DecidableEq, Repr

/-- A 3D furniture model in the library. -/
structure Model where
  id : String
  name : String
  glbPath : String
  thumbnailPath : String
  category : ModelCategory
  isBundled : Bool
  metadata : ModelMetadata
  createdAt : Nat
  lastUsedAt : Option Nat
  deriving DecidableEq, Repr

/-- Model index persisted in AsyncStorage. -/
structure ModelIndex where
  version : Nat
  models : List Model
  lastUpdated : Nat
  deriving DecidableEq, Repr

/-! ### core/types/scene.types.ts -/

/-- Anchor strategy for scene persistence. -/
inductive AnchorType
  | VPS
  | DEVICE_RELATIVE
  | MANUAL
  deriving DecidableEq, Repr

/-- 3D transformation data for placed objects. -/
structure Transform where
  position : Int × Int × Int
  rotation : Int × Int × Int × Int
  scale : Int × Int × Int
  deriving DecidableEq, Repr

/-- A furniture model placed in an AR scene. -/
structure PlacedObject where
  id : String
  modelId : String
  transform : Transform
  placedAt : Nat
  deriving DecidableEq, Repr

/-- A saved AR scene configuration. -/
structure SavedScene where
  id : String
  name : String
  thumbnailBase64 : String
  anchorId : Option String
  anchorType : AnchorType
  objects : List PlacedObject
  createdAt : Nat
  updatedAt : Nat
  deriving DecidableEq, Repr

/-- Scene index persisted in AsyncStorage. -/
structure SceneIndex where
  version : Nat
  scenes : List SavedScene
  lastUpdated : Nat
  deriving DecidableEq, Repr

/-- Status of a scanning session. -/
inductive ScanStatus
  | PREPARING
  | CAPTURING
  | PROCESSING
  | COMPLETE
  | FAILED
  | CANCELLED
  deriving DecidableEq, Repr

/-- Quality rating for a captured photo. -/
inductive PhotoQuality
  | GOOD
  | BLUR
  | DARK
  | OVEREXPOSED
  deriving DecidableEq, Repr

/-- A captured photo during scanning. -/
structure CapturedPhoto where
  photoId : String
  angle : Int
  quality : PhotoQuality
  timestamp : Nat
  deriving DecidableEq, Repr

/-- Active object scanning session (FR-011 to FR-015). -/
structure ScanSession where
  sessionId : String
  status : ScanStatus
  photos : List CapturedPhoto
  coverage : Int
  missingAngles : List (Int × Int)
  startedAt : Nat
  deriving DecidableEq, Repr

/-! ### core/types/webview.types.ts -/

/-- AR error codes reported by the engine. -/
inductive ARErrorCode
  | CAMERA_PERMISSION_DENIED
  | WEBGL_NOT_SUPPORTED
  | XRWEB_INIT_FAILED
  | VPS_UNAVAILABLE
  | NETWORK_ERROR
  | UNKNOWN
  deriving DecidableEq, Repr

/-- Native-to-engine message vocabulary. -/
inductive RNToWebViewMessageType
  | INIT_AR
  | LOAD_MODEL
  | REMOVE_MODEL
  | UPDATE_TRANSFORM
  | CAPTURE_SCENE
  | RESTORE_SCENE
  | START_SCAN
  | CAPTURE_SCAN_PHOTO
  | END_SCAN
  | CANCEL_SCAN
  | RESET_AR
  | PAUSE_AR
  | RESUME_AR
  deriving DecidableEq, Repr

/-- Engine-to-native message vocabulary. -/
inductive WebViewToRNMessageType
  | AR_READY
  | AR_ERROR
  | SURFACE_DETECTED
  | MODEL_PLACED
  | MODEL_ERROR
  | TRANSFORM_UPDATED
  | SCENE_CAPTURED
  | SCENE_RESTORED
  | SCAN_PHOTO_CAPTURED
  | SCAN_PROGRESS
  | SCAN_COMPLETE
  | SCAN_FAILED
  | TRACKING_STATE
  deriving DecidableEq, Repr

/-- Engine capabilities reported on AR_READY. -/
structure ARCapabilities where
  surfaceDetection : Bool
  lightEstimation : Bool
  vps : Bool
  scanning : Bool
  maxObjects : Nat
  deriving DecidableEq, Repr

/-! ### infrastructure/storage/asyncStorageHelpers.ts -/

/-- Storage error codes carried by `StorageError`. -/
inductive StorageErrorCode
  | READ_ERROR
  | WRITE_ERROR
  | PARSE_ERROR
  | VALIDATION_ERROR
  | UNKNOWN
  deriving DecidableEq, Repr

/-- The `StorageError` class: message, code, offending key. -/
structure StorageError where
  message : String
  code : StorageErrorCode
  key : Option String
  deriving DecidableEq, Repr

/-- Default model index (`lastUpdated` is `Date.now()` at module load). -/
def DEFAULT_MODEL_INDEX (loadTime : Nat) : ModelIndex :=
  { version := 1, models := [], lastUpdated := loadTime }

/-- Default scene index (`lastUpdated` is `Date.now()` at module load). -/
def DEFAULT_SCENE_INDEX (loadTime : Nat) : SceneIndex :=
  { version := 1, scenes := [], lastUpdated := loadTime }

/-- Generic read from AsyncStorage with JSON parsing. `getItem` is the
outcome of `AsyncStorage.getItem` (`Except.error` = the provider threw;
`none` = key absent); `parse` is `JSON.parse`, with `none` standing for a
thrown `SyntaxError`. -/
def readFromStorage {α : Type} (getItem : Except String (Option String))
    (parse : String → Option α) (key : String) (defaultValue : α) :
    Except StorageError α :=
  match getItem with
  | Except.error e =>
      Except.error
        { message := "Failed to read from storage: " ++ e,
          code := StorageErrorCode.READ_ERROR, key := some key }
  | Except.ok none => Except.ok defaultValue
  | Except.ok (some v) =>
      match parse v with
      | some t => Except.ok t
      | none =>
          Except.error
            { message := "Invalid JSON in storage for key: " ++ key,
              code := StorageErrorCode.PARSE_ERROR, key := some key }

/-- Outcome of a mutation helper on its storage key: the value stored
under the key afterwards, and whether the helper wrote the key back. -/
structure HelperResult (α : Type) where
  stored : Option α
  wrote : Bool
  deriving DecidableEq, Repr

/-- `getModelIndex`, on the parsed view of storage: a missing key yields
the default index. -/
def getModelIndex (stored : Option ModelIndex) (loadTime : Nat) : ModelIndex :=
  stored.getD (DEFAULT_MODEL_INDEX loadTime)

/-- `saveModelIndex`: rewrites `lastUpdated` to the current time and
writes the whole index. -/
def saveModelIndex (index : ModelIndex) (now : Nat) : ModelIndex :=
  { index with lastUpdated := now }

/-- `getSceneIndex`, on the parsed view of storage. -/
def getSceneIndex (stored : Option SceneIndex) (loadTime : Nat) : SceneIndex :=
  stored.getD (DEFAULT_SCENE_INDEX loadTime)

/-- `saveSceneIndex`: rewrites `lastUpdated` and writes the whole index. -/
def saveSceneIndex (index : SceneIndex) (now : Nat) : SceneIndex :=
  { index with lastUpdated := now }

/-- `addModelToIndex`: reads the index, pushes the model, saves. The
source performs no capacity check. -/
def addModelToIndex (stored : Option ModelIndex) (loadTime : Nat) (model : Model)
    (now : Nat) : HelperResult ModelIndex :=
  let index := getModelIndex stored loadTime
  { stored := some (saveModelIndex { index with models := index.models ++ [model] } now),
    wrote := true }

/-- `updateModelInIndex`: replaces the entry whose id matches; when no
entry matches (`findIndex` returns -1) nothing is written. -/
def updateModelInIndex (stored : Option ModelIndex) (loadTime : Nat) (model : Model)
    (now : Nat) : HelperResult ModelIndex :=
  let index := getModelIndex stored loadTime
  match index.models.findIdx? (fun m => m.id == model.id) with
  | some i =>
      { stored := some (saveModelIndex { index with models := index.models.set i model } now),
        wrote := true }
  | none => { stored := stored, wrote := false }

/-- `removeModelFromIndex`: filters the id out and saves unconditionally. -/
def removeModelFromIndex (stored : Option ModelIndex) (loadTime : Nat)
    (modelId : String) (now : Nat) : HelperResult ModelIndex :=
  let index := getModelIndex stored loadTime
  { stored := some (saveModelIndex { index with models := index.models.filter (fun m => m.id != modelId) } now),
    wrote := true }

/-- `addSceneToIndex`: reads the index, pushes the scene, saves; no
capacity check in the source. -/
def addSceneToIndex (stored : Option SceneIndex) (loadTime : Nat) (scene : SavedScene)
    (now : Nat) : HelperResult SceneIndex :=
  let index := getSceneIndex stored loadTime
  { stored := some (saveSceneIndex { index with scenes := index.scenes ++ [scene] } now),
    wrote := true }

/-- `updateSceneInIndex`: replaces the entry whose id matches; when no
entry matches nothing is written. -/
def updateSceneInIndex (stored : Option SceneIndex) (loadTime : Nat) (scene : SavedScene)
    (now : Nat) : HelperResult SceneIndex :=
  let index := getSceneIndex stored loadTime
  match index.scenes.findIdx? (fun s => s.id == scene.id) with
  | some i =>
      { stored := some (saveSceneIndex { index with scenes := index.scenes.set i scene } now),
        wrote := true }
  | none => { stored := stored, wrote := false }

/-- `removeSceneFromIndex`: filters the id out and saves unconditionally. -/
def removeSceneFromIndex (stored : Option SceneIndex) (loadTime : Nat)
    (sceneId : String) (now : Nat) : HelperResult SceneIndex :=
  let index := getSceneIndex stored loadTime
  { stored := some (saveSceneIndex { index with scenes := index.scenes.filter (fun s => s.id != sceneId) } now),
    wrote := true }

/-! ### infrastructure/webview/ARWebViewBridge.ts -/

/-- Wire string of a native-to-engine message type. -/
def RNToWebViewMessageType.wire : RNToWebViewMessageType → String
  | RNToWebViewMessageType.INIT_AR => "INIT_AR"
  | RNToWebViewMessageType.LOAD_MODEL => "LOAD_MODEL"
  | RNToWebViewMessageType.REMOVE_MODEL => "REMOVE_MODEL"
  | RNToWebViewMessageType.UPDATE_TRANSFORM => "UPDATE_TRANSFORM"
  | RNToWebViewMessageType.CAPTURE_SCENE => "CAPTURE_SCENE"
  | RNToWebViewMessageType.RESTORE_SCENE => "RESTORE_SCENE"
  | RNToWebViewMessageType.START_SCAN => "START_SCAN"
  | RNToWebViewMessageType.CAPTURE_SCAN_PHOTO => "CAPTURE_SCAN_PHOTO"
  | RNToWebViewMessageType.END_SCAN => "END_SCAN"
  | RNToWebViewMessageType.CANCEL_SCAN => "CANCEL_SCAN"
  | RNToWebViewMessageType.RESET_AR => "RESET_AR"
  | RNToWebViewMessageType.PAUSE_AR => "PAUSE_AR"
  | RNToWebViewMessageType.RESUME_AR => "RESUME_AR"

namespace ARWebViewBridge

/-- Decimal rendering of a JS number interpolated into a template
literal: the base-10 digits of `n`, most significant first. -/
def decRepr (n : Nat) : String :=
  if n = 0 then "0"
  else String.mk (((Nat.digits 10 n).map Nat.digitChar).reverse)

/-- `generateMessageId`: renders msg_, `Date.now()` and the
pre-incremented module-level counter, joined by underscores; returns the
id and the new counter value. -/
def generateMessageId (now : Nat) (messageCounter : Nat) : String × Nat :=
  ("msg_" ++ decRepr now ++ "_" ++ decRepr (messageCounter + 1), messageCounter + 1)

/-- Sequential message-id generations by one bridge instance: `clock`
gives the `Date.now()` reading at each step (arbitrary — the clock may
stall or jump). -/
def genMessageIds (clock : Nat → Nat) : Nat → Nat → List String
  | 0, _ => []
  | n + 1, counter =>
      let r := generateMessageId (clock counter) counter
      r.1 :: genMessageIds clock n r.2

/-- A Pending Request, keyed by messageId; `deadline` is the instant its
`setTimeout` fires (registration time + timeoutMs). -/
structure PendingRequest where
  messageId : String
  deadline : Nat
  deriving DecidableEq, Repr

/-- The errors with which the bridge rejects a caller. -/
inductive BridgeError
  | requestTimeout (requestType : RNToWebViewMessageType)
  | bridgeDetached
  | webViewNotAttached
  deriving DecidableEq, Repr

/-- The `Error` message string carried by each rejection. -/
def BridgeError.errorMessage : BridgeError → String
  | BridgeError.requestTimeout t => "Request timeout for " ++ t.wire
  | BridgeError.bridgeDetached => "Bridge detached"
  | BridgeError.webViewNotAttached => "WebView not attached"

/-- Bridge instance state: whether a WebView ref is attached, the
readiness flag, and the pending-request map (association list in
insertion order — JS `Map` iterates in insertion order). -/
structure BridgeState where
  attached : Bool
  isReady : Bool
  pendingRequests : List PendingRequest
  deriving DecidableEq, Repr

/-- Default value of the `timeout` parameter of `sendAndWait`. -/
def sendAndWaitDefaultTimeoutMs : Nat := 10000

/-- Registration step of `sendAndWait`: with a WebView attached, a
Pending Request keyed by the fresh messageId is inserted with its timer
set to fire at `now + timeoutMs`; with no WebView the call rejects
immediately and nothing is registered. -/
def sendAndWaitRegister (st : BridgeState) (id : String) (now timeoutMs : Nat) :
    BridgeState × Option BridgeError :=
  if st.attached then
    ({ st with pendingRequests := st.pendingRequests ++ [{ messageId := id, deadline := now + timeoutMs }] },
     none)
  else
    (st, some BridgeError.webViewNotAttached)

/-- The `setTimeout` callback registered by `sendAndWait`, firing at the
entry's deadline: deletes the Pending Request from the map, then rejects
the promise with a timeout error. -/
def timeoutFire (st : BridgeState) (id : String)
    (requestType : RNToWebViewMessageType) : BridgeState × (String × BridgeError) :=
  ({ st with pendingRequests := st.pendingRequests.eraseP (fun p => p.messageId == id) },
   (id, BridgeError.requestTimeout requestType))

/-- `detach()`: drops the WebView ref, clears readiness, and for every
outstanding Pending Request clears its timer, rejects it with a
Bridge detached error and deletes it from the map. Returns the emitted
rejections in map order. -/
def detach (st : BridgeState) : BridgeState × List (String × BridgeError) :=
  ({ attached := false, isReady := false, pendingRequests := [] },
   st.pendingRequests.map (fun p => (p.messageId, BridgeError.bridgeDetached)))

/-- `send`: with no WebView attached the message is logged and dropped
(`none`); otherwise the envelope is serialized and injected. Only the
message type matters to the verified claims. -/
def send (st : BridgeState) (msgType : RNToWebViewMessageType) :
    Option RNToWebViewMessageType :=
  if st.attached then some msgType else none

/-- `endScan`: sends END_SCAN unconditionally — the source consults no
photo count before sending. -/
def endScan (st : BridgeState) : Option RNToWebViewMessageType :=
  send st RNToWebViewMessageType.END_SCAN

/-- Dispatch of one inbound message over the handler set of its type.
JS `Set.forEach` visits elements in insertion order and does not visit
an element deleted before its turn. Handlers are named by ids; the first
list is the insertion order at dispatch start, the second the live set;
`eff h` lists the ids whose unsubscribe closures handler `h` calls while
it runs. Returns the invoked handlers in order and the final live set. -/
def dispatchFrom (eff : Nat → List Nat) :
    List Nat → List Nat → List Nat × List Nat
  | [], alive => ([], alive)
  | h :: rest, alive =>
      if h ∈ alive then
        let alive1 := (eff h).foldl (fun a x => a.erase x) alive
        let r := dispatchFrom eff rest alive1
        (h :: r.1, r.2)
      else dispatchFrom eff rest alive

/-- The type-specific part of `handleMessage`: iteration starts over the
full live handler set of the message type. -/
def dispatchHandlers (eff : Nat → List Nat) (handlers : List Nat) :
    List Nat × List Nat :=
  dispatchFrom eff handlers handlers

end ARWebViewBridge

/-! ### core/stores/useARStore.ts -/

namespace useARStore

/-- AR session status. -/
inductive ARStatus
  | IDLE
  | INITIALIZING
  | READY
  | SURFACE_DETECTED
  | ERROR
  deriving DecidableEq, Repr

/-- Placement mode for AR interactions. -/
inductive PlacementMode
  | NONE
  | PLACING
  | ADJUSTING
  deriving DecidableEq, Repr

/-- AR store state. -/
structure ARState where
  status : ARStatus
  isInitialized : Bool
  error : Option ARErrorCode
  errorMessage : Option String
  capabilities : Option ARCapabilities
  surfaceDetected : Bool
  surfaceNormal : Option (Int × Int × Int)
  placementMode : PlacementMode
  modelToPlace : Option String
  currentFps : Nat
  memoryUsage : Nat
  webViewReady : Bool
  deriving DecidableEq, Repr

/-- `canPlaceObject`: pure query over current state — initialized,
surface detected, no error, placement mode NONE. -/
def canPlaceObject (s : ARState) : Bool :=
  s.isInitialized && s.surfaceDetected && s.error == none &&
    s.placementMode == PlacementMode.NONE

/-- `isSessionActive` query. -/
def isSessionActive (s : ARState) : Bool :=
  s.isInitialized && s.webViewReady && s.error == none

end useARStore

/-! ### core/stores/useSceneStore.ts -/

namespace useSceneStore

/-- Scene store state. -/
structure SceneState where
  currentScene : Option SavedScene
  placedObjects : List PlacedObject
  selectedObjectId : Option String
  savedScenes : List SavedScene
  scanSession : Option ScanSession
  isLoading : Bool
  error : Option String
  isDirty : Bool
  deriving DecidableEq, Repr

/-- `canAddObject`: placed-object count below MAX_OBJECTS_PER_SCENE. -/
def canAddObject (s : SceneState) : Bool :=
  s.placedObjects.length < SCENE_LIMITS.MAX_OBJECTS_PER_SCENE

/-- `canSaveScene`: below the scene quota, or a current scene is
loaded. -/
def canSaveScene (s : SceneState) : Bool :=
  s.savedScenes.length < SCENE_LIMITS.MAX_SCENES || s.currentScene.isSome

/-- `endScan` action of the scene store: clears the scan session
unconditionally. -/
def endScan (s : SceneState) : SceneState :=
  { s with scanSession := none }

end useSceneStore

/-! ### Concrete fixtures for witnesses and evaluations -/

/-- Placeholder bounding box for fixture models. -/
def sampleBoundingBox : BoundingBox :=
  { min := (0, 0, 0), max := (1, 1, 1), center := (0, 0, 0), size := (1, 1, 1) }

/-- Placeholder metadata for fixture models. -/
def sampleMetadata : ModelMetadata :=
  { fileSize := 1000, vertexCount := 10, textureResolution := none,
    hasAnimations := false, boundingBox := sampleBoundingBox }

/-- Fixture model number `n`. -/
def mkModel (n : Nat) : Model :=
  { id := "model-" ++ toString n, name := "Model " ++ toString n,
    glbPath := "models/m.glb", thumbnailPath := "models/thumbnails/m.jpg",
    category := ModelCategory.CHAIR, isBundled := false,
    metadata := sampleMetadata, createdAt := 0, lastUsedAt := none }

/-- A stored model index holding exactly MAX_MODELS models. -/
def modelIndexAt50 : ModelIndex :=
  { version := 1, models := (List.range 50).map mkModel, lastUpdated := 100 }

/-- Fixture scene number `n`. -/
def mkScene (n : Nat) : SavedScene :=
  { id := "scene-" ++ toString n, name := "Scene " ++ toString n,
    thumbnailBase64 := "", anchorId := none,
    anchorType := AnchorType.DEVICE_RELATIVE, objects := [],
    createdAt := 0, updatedAt := 0 }

/-- A stored scene index holding exactly MAX_SCENES scenes. -/
def sceneIndexAt20 : SceneIndex :=
  { version := 1, scenes := (List.range 20).map mkScene, lastUpdated := 100 }

/-- Identity-ish transform for fixture placed objects. -/
def sampleTransform : Transform :=
  { position := (0, 0, 0), rotation := (1, 0, 0, 0), scale := (1, 1, 1) }

/-- Fixture placed object number `n`. -/
def mkPlacedObject (n : Nat) : PlacedObject :=
  { id := "obj-" ++ toString n, modelId := "model-0",
    transform := sampleTransform, placedAt := 0 }

/-- AR store state that is initialized, has a detected surface, no error
and placement mode NONE. -/
def arReadyState : useARStore.ARState :=
  { status := useARStore.ARStatus.SURFACE_DETECTED, isInitialized := true,
    error := none, errorMessage := none, capabilities := none,
    surfaceDetected := true, surfaceNormal := none,
    placementMode := useARStore.PlacementMode.NONE, modelToPlace := none,
    currentFps := 30, memoryUsage := 0, webViewReady := true }

/-- Scene store state with exactly ten placed objects. -/
def sceneWith10Objects : useSceneStore.SceneState :=
  { currentScene := none, placedObjects := (List.range 10).map mkPlacedObject,
    selectedObjectId := none, savedScenes := [], scanSession := none,
    isLoading := false, error := none, isDirty := false }

/-- Scene store state at the scene quota with a current scene loaded. -/
def sceneAtQuotaWithCurrent : useSceneStore.SceneState :=
  { currentScene := some (mkScene 0),
    placedObjects := [], selectedObjectId := none,
    savedScenes := (List.range 20).map mkScene, scanSession := none,
    isLoading := false, error := none, isDirty := false }

/-- Fixture captured photo number `n`. -/
def mkPhoto (n : Nat) : CapturedPhoto :=
  { photoId := "photo-" ++ toString n, angle := Int.ofNat (n * 10),
    quality := PhotoQuality.GOOD, timestamp := n }

/-- A capturing scan session with only five photos. -/
def scanWith5Photos : ScanSession :=
  { sessionId := "scan-1", status := ScanStatus.CAPTURING,
    photos := (List.range 5).map mkPhoto, coverage := 12,
    missingAngles := [], startedAt := 0 }

/-- Scene store state holding the five-photo scan session. -/
def sceneStateWithScan : useSceneStore.SceneState :=
  { currentScene := none, placedObjects := [], selectedObjectId := none,
    savedScenes := [], scanSession := some scanWith5Photos,
    isLoading := false, error := none, isDirty := false }

/-- A bridge with an attached WebView and two outstanding requests. -/
def bridgeWithTwoPending : ARWebViewBridge.BridgeState :=
  { attached := true, isReady := true,
    pendingRequests :=
      [ { messageId := "msg_1_1", deadline := 10001 },
        { messageId := "msg_2_2", deadline := 10002 } ] }

/-- Fixture unsubscription effect: handler 0 unsubscribes handler 1
while running; every other handler unsubscribes nothing. -/
def effWitness : Nat → List Nat := fun n => if n = 0 then [1] else []

/-! ## Theorems -/

/-! ### Helper lemmas -/

/-- findIdx? finds nothing when no element satisfies the predicate. -/
theorem findIdx?_eq_none_of {α : Type} (p : α → Bool) :
    ∀ l : List α, (∀ x ∈ l, p x = false) → l.findIdx? p = none := by
  intro l hl
  induction l with
  | nil => rfl
  | cons a t ih =>
      have ha : p a = false := hl a (List.mem_cons_self a t)
      have ht : t.findIdx? p = none := ih (fun x hx => hl x (List.mem_cons_of_mem a hx))
      simp [List.findIdx?_cons, ha, ht]

/-- Keys after deleting the entry for `id` from a pending map with
duplicate-free keys no longer contain `id`. -/
theorem eraseP_key_not_mem (id : String) :
    ∀ l : List ARWebViewBridge.PendingRequest,
      (l.map ARWebViewBridge.PendingRequest.messageId).Nodup →
      id ∉ (l.eraseP (fun p => p.messageId == id)).map
            ARWebViewBridge.PendingRequest.messageId := by
  intro l
  induction l with
  | nil => intro _ h; simp at h
  | cons p t ih =>
      intro hnd
      simp only [List.map_cons, List.nodup_cons] at hnd
      by_cases hp : p.messageId = id
      · have h1 : id ∉ List.map ARWebViewBridge.PendingRequest.messageId t := hp ▸ hnd.1
        simpa [List.eraseP_cons, hp] using h1
      · have hb : (p.messageId == id) = false := by simp [hp]
        have h2 := ih hnd.2
        intro hmem
        rw [List.eraseP_cons] at hmem
        simp [hb] at hmem
        rcases hmem with h | h
        · exact hp h.symm
        · exact h2 (List.mem_map.mpr ⟨h.choose, h.choose_spec.1, h.choose_spec.2⟩)

/-! ### C6: read of missing key returns default; corrupted JSON is a
distinct parse error -/

/-- C6: for every storage key read, an absent key yields the default
value (for the model index, the well-defined default
version 1 / empty items / lastUpdated now) and never an error, while a
present key whose stored JSON fails to parse yields a PARSE_ERROR
StorageError — an error outcome, distinguishable from every ok outcome
and in particular from the key-absent default. -/
theorem readFromStorage_default_and_parse_error {α : Type}
    (parse : String → Option α) (parseIdx : String → Option ModelIndex)
    (key : String) (d : α) (v : String) (loadTime : Nat)
    (hp : parse v = none) :
    readFromStorage (Except.ok none) parse key d = Except.ok d ∧
    readFromStorage (Except.ok none) parseIdx key (DEFAULT_MODEL_INDEX loadTime) =
      Except.ok { version := 1, models := [], lastUpdated := loadTime } ∧
    readFromStorage (Except.ok (some v)) parse key d =
      Except.error
        { message := "Invalid JSON in storage for key: " ++ key,
          code := StorageErrorCode.PARSE_ERROR, key := some key } ∧
    (∀ x : α, readFromStorage (Except.ok (some v)) parse key d ≠ Except.ok x) := by
  refine ⟨rfl, rfl, ?_, ?_⟩
  · simp [readFromStorage, hp]
  · intro x
    simp [readFromStorage, hp]

/-- Witness for C6 at concrete inputs. -/
theorem readFromStorage_default_and_parse_error_witness :
    readFromStorage (Except.ok none) (fun _ => none) "model_index" (7 : Nat) =
      Except.ok 7 ∧
    readFromStorage (Except.ok (some "corrupt")) (fun _ => (none : Option Nat))
        "model_index" 7 =
      Except.error
        { message := "Invalid JSON in storage for key: " ++ "model_index",
          code := StorageErrorCode.PARSE_ERROR, key := some "model_index" } := by
  have h := readFromStorage_default_and_parse_error
    (fun _ => (none : Option Nat)) (fun _ => none) "model_index" 7 "corrupt" 0 rfl
  exact ⟨h.1, h.2.2.1⟩

/-! ### C9: update with unknown id writes nothing; add/remove always
write -/

/-- C9: when the model id does not occur in the stored index,
updateModelInIndex performs no write and leaves the stored index —
including lastUpdated — unchanged (updateSceneInIndex likewise for an
unknown scene id), whereas addModelToIndex and removeModelFromIndex
always write the index back with lastUpdated set to the current time. -/
theorem update_unknown_id_performs_no_write
    (storedM : Option ModelIndex) (storedS : Option SceneIndex)
    (loadTime now : Nat) (m : Model) (sc : SavedScene)
    (hm : ∀ x ∈ (getModelIndex storedM loadTime).models, x.id ≠ m.id)
    (hs : ∀ x ∈ (getSceneIndex storedS loadTime).scenes, x.id ≠ sc.id) :
    updateModelInIndex storedM loadTime m now = { stored := storedM, wrote := false } ∧
    updateSceneInIndex storedS loadTime sc now = { stored := storedS, wrote := false } ∧
    (addModelToIndex storedM loadTime m now).wrote = true ∧
    (addModelToIndex storedM loadTime m now).stored.map ModelIndex.lastUpdated =
      some now ∧
    (removeModelFromIndex storedM loadTime m.id now).wrote = true ∧
    (removeModelFromIndex storedM loadTime m.id now).stored.map ModelIndex.lastUpdated =
      some now := by
  have hfm : (getModelIndex storedM loadTime).models.findIdx?
      (fun x => x.id == m.id) = none := by
    apply findIdx?_eq_none_of
    intro x hx
    simp [hm x hx]
  have hfs : (getSceneIndex storedS loadTime).scenes.findIdx?
      (fun x => x.id == sc.id) = none := by
    apply findIdx?_eq_none_of
    intro x hx
    simp [hs x hx]
  refine ⟨?_, ?_, rfl, rfl, rfl, rfl⟩
  · simp [updateModelInIndex, hfm]
  · simp [updateSceneInIndex, hfs]

/-- Witness for C9: updating a model and a scene absent from concrete
stored indices. -/
theorem update_unknown_id_performs_no_write_witness :
    updateModelInIndex (some modelIndexAt50) 0 (mkModel 77) 5 =
      { stored := some modelIndexAt50, wrote := false } ∧
    updateSceneInIndex (some sceneIndexAt20) 0 (mkScene 77) 5 =
      { stored := some sceneIndexAt20, wrote := false } := by
  have h := update_unknown_id_performs_no_write (some modelIndexAt50)
    (some sceneIndexAt20) 0 5 (mkModel 77) (mkScene 77)
    (by decide) (by decide)
  exact ⟨h.1, h.2.1⟩

/-! ### C10: a loaded current scene always permits saving -/

/-- C10: whenever a current scene is loaded, canSaveScene returns true
regardless of how many scenes are saved — the quota disjunct only
blocks saving when no current scene exists. -/
theorem canSaveScene_true_with_current_scene
    (s : useSceneStore.SceneState) (sc : SavedScene)
    (h : s.currentScene = some sc) :
    useSceneStore.canSaveScene s = true := by
  simp [useSceneStore.canSaveScene, h]

/-- Witness for C10: a state at the 20-scene quota with a loaded current
scene can still save. -/
theorem canSaveScene_true_with_current_scene_witness :
    sceneAtQuotaWithCurrent.savedScenes.length = SCENE_LIMITS.MAX_SCENES ∧
    useSceneStore.canSaveScene sceneAtQuotaWithCurrent = true := by
  exact ⟨by decide, canSaveScene_true_with_current_scene sceneAtQuotaWithCurrent
    (mkScene 0) rfl⟩

/-! ### C1: quota enforcement in addModelToIndex / addSceneToIndex -/

/-- C1 (code evaluation at the failing input): with the stored model
index already at the 50-model quota, addModelToIndex raises no quota
error — it writes back a 51-model index with a fresh lastUpdated; the
stored index is not left unchanged. addSceneToIndex behaves likewise at
the 20-scene quota. The source contains no capacity check. -/
theorem addToIndex_writes_beyond_quota :
    modelIndexAt50.models.length = MODEL_LIMITS.MAX_MODELS ∧
    (addModelToIndex (some modelIndexAt50) 0 (mkModel 50) 5).wrote = true ∧
    (addModelToIndex (some modelIndexAt50) 0 (mkModel 50) 5).stored.map
      (fun i => i.models.length) = some 51 ∧
    (addModelToIndex (some modelIndexAt50) 0 (mkModel 50) 5).stored ≠
      some modelIndexAt50 ∧
    sceneIndexAt20.scenes.length = SCENE_LIMITS.MAX_SCENES ∧
    (addSceneToIndex (some sceneIndexAt20) 0 (mkScene 20) 5).wrote = true ∧
    (addSceneToIndex (some sceneIndexAt20) 0 (mkScene 20) 5).stored.map
      (fun i => i.scenes.length) = some 21 := by
  refine ⟨by decide, rfl, by decide, ?_, by decide, rfl, by decide⟩
  intro h
  have h2 := congrArg (fun o => Option.map ModelIndex.lastUpdated o) h
  simp [addModelToIndex, saveModelIndex, getModelIndex, modelIndexAt50] at h2

/-! ### C5: no native enforcement of the 20-photo scan floor -/

/-- C5 (code evaluation at the failing input): with a capturing session
holding only five photos — below MIN_SCAN_PHOTOS = 20 — the bridge
endScan still sends END_SCAN (no rejection), and the scene store
endScan still discards the session; no code consults the photo count. -/
theorem endScan_sends_below_min_photos :
    MODEL_LIMITS.MIN_SCAN_PHOTOS = 20 ∧
    scanWith5Photos.photos.length < MODEL_LIMITS.MIN_SCAN_PHOTOS ∧
    ARWebViewBridge.endScan bridgeWithTwoPending =
      some RNToWebViewMessageType.END_SCAN ∧
    (useSceneStore.endScan sceneStateWithScan).scanSession = none := by
  exact ⟨rfl, by decide, rfl, rfl⟩

/-! ### C2: timeout rejects and removes the Pending Request -/

/-- C2: the default timeout is 10 000 ms; registration stores a Pending
Request keyed by the sent messageId with its timer set to fire at
now + timeoutMs; when that timer fires without a matching response the
caller is rejected with a timeout error and the Pending Request is
removed from the pending map, so a subsequent detach emits no rejection
for that messageId. -/
theorem sendAndWait_timeout_rejects_and_removes
    (st : ARWebViewBridge.BridgeState) (id : String)
    (rt : RNToWebViewMessageType) (now tms : Nat)
    (hatt : st.attached = true)
    (hnd : (st.pendingRequests.map ARWebViewBridge.PendingRequest.messageId).Nodup) :
    ARWebViewBridge.sendAndWaitDefaultTimeoutMs = 10000 ∧
    (ARWebViewBridge.sendAndWaitRegister st id now tms).1.pendingRequests =
      st.pendingRequests ++ [{ messageId := id, deadline := now + tms }] ∧
    (ARWebViewBridge.timeoutFire st id rt).2 =
      (id, ARWebViewBridge.BridgeError.requestTimeout rt) ∧
    id ∉ (ARWebViewBridge.timeoutFire st id rt).1.pendingRequests.map
      ARWebViewBridge.PendingRequest.messageId ∧
    (∀ r ∈ (ARWebViewBridge.detach (ARWebViewBridge.timeoutFire st id rt).1).2,
      r.1 ≠ id) := by
  refine ⟨rfl, by simp [ARWebViewBridge.sendAndWaitRegister, hatt], rfl, ?_, ?_⟩
  · exact eraseP_key_not_mem id st.pendingRequests hnd
  · intro r hr
    simp only [ARWebViewBridge.detach, List.mem_map] at hr
    obtain ⟨p, hp, rfl⟩ := hr
    intro hEq
    exact (eraseP_key_not_mem id st.pendingRequests hnd)
      (List.mem_map.mpr ⟨p, hp, hEq⟩)

/-- Witness for C2: the timeout of the first of two outstanding requests
rejects it with a timeout error and removes exactly its entry. -/
theorem sendAndWait_timeout_rejects_and_removes_witness :
    (ARWebViewBridge.timeoutFire bridgeWithTwoPending "msg_1_1"
      RNToWebViewMessageType.LOAD_MODEL).2 =
      ("msg_1_1",
        ARWebViewBridge.BridgeError.requestTimeout RNToWebViewMessageType.LOAD_MODEL) ∧
    "msg_1_1" ∉ (ARWebViewBridge.timeoutFire bridgeWithTwoPending "msg_1_1"
      RNToWebViewMessageType.LOAD_MODEL).1.pendingRequests.map
      ARWebViewBridge.PendingRequest.messageId := by
  have h := sendAndWait_timeout_rejects_and_removes bridgeWithTwoPending "msg_1_1"
    RNToWebViewMessageType.LOAD_MODEL 0 10000 rfl (by decide)
  exact ⟨h.2.2.1, h.2.2.2.1⟩

/-! ### C3: detach rejects every outstanding request exactly once -/

/-- C3: detach rejects every outstanding Pending Request exactly once
each with the detachment-specific Bridge detached error and empties the
pending-request map; no Pending Request survives detachment
unresolved. -/
theorem detach_rejects_all_pending_once (st : ARWebViewBridge.BridgeState)
    (hnd : (st.pendingRequests.map ARWebViewBridge.PendingRequest.messageId).Nodup) :
    (ARWebViewBridge.detach st).1.pendingRequests = [] ∧
    (ARWebViewBridge.detach st).2.map Prod.fst =
      st.pendingRequests.map ARWebViewBridge.PendingRequest.messageId ∧
    (∀ r ∈ (ARWebViewBridge.detach st).2,
      r.2 = ARWebViewBridge.BridgeError.bridgeDetached) ∧
    (∀ id ∈ st.pendingRequests.map ARWebViewBridge.PendingRequest.messageId,
      (ARWebViewBridge.detach st).2.countP (fun r => r.1 == id) = 1) ∧
    ARWebViewBridge.BridgeError.errorMessage
      ARWebViewBridge.BridgeError.bridgeDetached = "Bridge detached" := by
  refine ⟨rfl, by simp [ARWebViewBridge.detach], ?_, ?_, rfl⟩
  · intro r hr
    simp only [ARWebViewBridge.detach, List.mem_map] at hr
    obtain ⟨p, hp, rfl⟩ := hr
    rfl
  · intro id hid
    have hcm : (ARWebViewBridge.detach st).2.countP (fun r => r.1 == id) =
        (st.pendingRequests.map ARWebViewBridge.PendingRequest.messageId).countP
          (fun k => k == id) := by
      simp [ARWebViewBridge.detach, List.countP_map, Function.comp_def]
    rw [hcm]
    have := List.count_eq_one_of_mem hnd hid
    simpa [List.count] using this

/-- Witness for C3: detaching with two outstanding requests rejects both
and empties the map. -/
theorem detach_rejects_all_pending_once_witness :
    (ARWebViewBridge.detach bridgeWithTwoPending).1.pendingRequests = [] ∧
    (ARWebViewBridge.detach bridgeWithTwoPending).2.map Prod.fst =
      ["msg_1_1", "msg_2_2"] := by
  have h := detach_rejects_all_pending_once bridgeWithTwoPending (by decide)
  exact ⟨h.1, h.2.1.trans (by decide)⟩

/-! ### C4: capacity and placement queries -/

/-- C4 counterexample: in a state with exactly ten placed objects where
the session is initialized, a surface is detected, there is no current
error and placement mode is None, canPlaceObject returns true — not
false as the claim states for object count 10; the query never consults
the placed-object count. -/
theorem canPlaceObject_at_ten_objects_counterexample :
    sceneWith10Objects.placedObjects.length = 10 ∧
    arReadyState.isInitialized = true ∧
    arReadyState.surfaceDetected = true ∧
    arReadyState.error = none ∧
    arReadyState.placementMode = useARStore.PlacementMode.NONE ∧
    useARStore.canPlaceObject arReadyState = true := by
  exact ⟨by decide, rfl, rfl, rfl, rfl, by decide⟩

/-- C4 amended: given the session is initialized, a surface is detected,
there is no current error and placement mode is None — canAddObject
returns false when the placed-object count equals 10 and true when the
count is below 10, while canPlaceObject does not consult the object
count: it returns true under these conditions alone, even when ten
objects are placed. -/
theorem capacity_queries_amended
    (s : useSceneStore.SceneState) (a : useARStore.ARState)
    (h1 : a.isInitialized = true) (h2 : a.surfaceDetected = true)
    (h3 : a.error = none) (h4 : a.placementMode = useARStore.PlacementMode.NONE) :
    (s.placedObjects.length = SCENE_LIMITS.MAX_OBJECTS_PER_SCENE →
      useSceneStore.canAddObject s = false) ∧
    (s.placedObjects.length < SCENE_LIMITS.MAX_OBJECTS_PER_SCENE →
      useSceneStore.canAddObject s = true) ∧
    useARStore.canPlaceObject a = true := by
  refine ⟨?_, ?_, ?_⟩
  · intro h
    simp [useSceneStore.canAddObject, h]
  · intro h
    simp [useSceneStore.canAddObject, h]
  · simp [useARStore.canPlaceObject, h1, h2, h3, h4]

/-- Witness for the amended C4: ten placed objects block canAddObject
while canPlaceObject stays true. -/
theorem capacity_queries_amended_witness :
    useSceneStore.canAddObject sceneWith10Objects = false ∧
    useARStore.canPlaceObject arReadyState = true := by
  have h := capacity_queries_amended sceneWith10Objects arReadyState rfl rfl rfl rfl
  exact ⟨h.1 (by decide), h.2.2⟩

/-! ### C7: unsubscription during dispatch -/

/-- Unfolding of dispatch at the turn of a live handler. -/
theorem dispatchFrom_cons_pos (eff : Nat → List Nat) (hh : Nat)
    (t alive : List Nat) (hm : hh ∈ alive) :
    ARWebViewBridge.dispatchFrom eff (hh :: t) alive =
      (hh :: (ARWebViewBridge.dispatchFrom eff t
        ((eff hh).foldl (fun acc x => acc.erase x) alive)).1,
       (ARWebViewBridge.dispatchFrom eff t
        ((eff hh).foldl (fun acc x => acc.erase x) alive)).2) := by
  simp [ARWebViewBridge.dispatchFrom, hm]

/-- Unfolding of dispatch at the turn of a removed handler. -/
theorem dispatchFrom_cons_neg (eff : Nat → List Nat) (hh : Nat)
    (t alive : List Nat) (hm : hh ∉ alive) :
    ARWebViewBridge.dispatchFrom eff (hh :: t) alive =
      ARWebViewBridge.dispatchFrom eff t alive := by
  simp [ARWebViewBridge.dispatchFrom, hm]

/-- Non-membership survives a fold of erasures. -/
theorem not_mem_foldl_erase (y : Nat) :
    ∀ (xs a : List Nat), y ∉ a →
      y ∉ xs.foldl (fun acc x => acc.erase x) a := by
  intro xs
  induction xs with
  | nil =>
      intro a h
      simpa using h
  | cons x t ih =>
      intro a h
      simp only [List.foldl_cons]
      exact ih _ (fun hc => h (List.mem_of_mem_erase hc))

/-- Erasing every id a handler unsubscribes removes each of them from a
duplicate-free live set. -/
theorem mem_effects_not_mem_foldl_erase (y : Nat) :
    ∀ (xs a : List Nat), a.Nodup → y ∈ xs →
      y ∉ xs.foldl (fun acc x => acc.erase x) a := by
  intro xs
  induction xs with
  | nil =>
      intro a _ h
      simp at h
  | cons x t ih =>
      intro a hnd hy
      simp only [List.foldl_cons]
      rcases List.mem_cons.mp hy with rfl | hyt
      · exact not_mem_foldl_erase y t _ (hnd.not_mem_erase)
      · exact ih _ (hnd.erase x) hyt

/-- A handler absent from the live set is neither invoked nor present in
the final registry. -/
theorem dispatchFrom_dead (eff : Nat → List Nat) (y : Nat) :
    ∀ (pending alive : List Nat), y ∉ alive →
      y ∉ (ARWebViewBridge.dispatchFrom eff pending alive).1 ∧
      y ∉ (ARWebViewBridge.dispatchFrom eff pending alive).2 := by
  intro pending
  induction pending with
  | nil =>
      intro alive h
      exact ⟨by simp [ARWebViewBridge.dispatchFrom], by simpa [ARWebViewBridge.dispatchFrom] using h⟩
  | cons hh t ih =>
      intro alive h
      by_cases hm : hh ∈ alive
      · have hne : y ≠ hh := fun e => h (e ▸ hm)
        have h1 : y ∉ (eff hh).foldl (fun acc x => acc.erase x) alive :=
          not_mem_foldl_erase y _ _ h
        have hrec := ih _ h1
        rw [dispatchFrom_cons_pos eff hh t alive hm]
        exact ⟨by simp [hne, hrec.1], hrec.2⟩
      · rw [dispatchFrom_cons_neg eff hh t alive hm]
        exact ih _ h

/-- Invoked handlers form a subsequence of the insertion order. -/
theorem dispatchFrom_sublist (eff : Nat → List Nat) :
    ∀ (pending alive : List Nat),
      (ARWebViewBridge.dispatchFrom eff pending alive).1.Sublist pending := by
  intro pending
  induction pending with
  | nil =>
      intro alive
      simp [ARWebViewBridge.dispatchFrom]
  | cons hh t ih =>
      intro alive
      by_cases hm : hh ∈ alive
      · rw [dispatchFrom_cons_pos eff hh t alive hm]
        exact List.Sublist.cons₂ hh (ih _)
      · rw [dispatchFrom_cons_neg eff hh t alive hm]
        exact List.Sublist.cons hh (ih _)

/-- C7: a handler whose unsubscribe handle is called by an earlier
handler during dispatch of the same message type is not invoked in the
current batch, is removed from the registry, and is not invoked by any
later dispatch; invoked handlers always run in insertion order. -/
theorem unsubscribed_handler_never_invoked
    (eff : Nat → List Nat) (x y : Nat) (rest pending2 alive : List Nat)
    (hnd : alive.Nodup) (hx : x ∈ alive) (hy : y ∈ eff x) :
    (ARWebViewBridge.dispatchFrom eff (x :: rest) alive).1 =
      x :: (ARWebViewBridge.dispatchFrom eff rest
        ((eff x).foldl (fun acc z => acc.erase z) alive)).1 ∧
    y ∉ (ARWebViewBridge.dispatchFrom eff rest
        ((eff x).foldl (fun acc z => acc.erase z) alive)).1 ∧
    y ∉ (ARWebViewBridge.dispatchFrom eff (x :: rest) alive).2 ∧
    y ∉ (ARWebViewBridge.dispatchFrom eff pending2
        ((ARWebViewBridge.dispatchFrom eff (x :: rest) alive).2)).1 ∧
    (ARWebViewBridge.dispatchFrom eff (x :: rest) alive).1.Sublist (x :: rest) := by
  have hdead : y ∉ (eff x).foldl (fun acc z => acc.erase z) alive :=
    mem_effects_not_mem_foldl_erase y (eff x) alive hnd hy
  have hstep := dispatchFrom_cons_pos eff x rest alive hx
  have hrest := dispatchFrom_dead eff y rest _ hdead
  refine ⟨by rw [hstep], hrest.1, ?_, ?_, dispatchFrom_sublist eff (x :: rest) alive⟩
  · rw [hstep]
    exact hrest.2
  · rw [hstep]
    exact (dispatchFrom_dead eff y pending2 _ hrest.2).1

/-- Witness for C7: handler 0 unsubscribes handler 1 while the batch
[0, 1, 2] is dispatched; handler 1 is skipped now and in the next
batch. -/
theorem unsubscribed_handler_never_invoked_witness :
    1 ∉ (ARWebViewBridge.dispatchFrom effWitness [0, 1, 2] [0, 1, 2]).2 ∧
    (ARWebViewBridge.dispatchFrom effWitness [0, 1, 2] [0, 1, 2]).1.Sublist [0, 1, 2] := by
  have h := unsubscribed_handler_never_invoked effWitness 0 1 [1, 2] [0, 2] [0, 1, 2]
    (by decide) (by decide) (by decide)
  exact ⟨h.2.2.1, h.2.2.2.2⟩

/-! ### C8: message-id uniqueness -/

/-- Digits below ten never render as an underscore. -/
theorem digitChar_ne_underscore : ∀ d < 10, Nat.digitChar d ≠ '_' := by
  decide

/-- digitChar is injective below ten. -/
theorem digitChar_inj_below : ∀ d1 < 10, ∀ d2 < 10,
    Nat.digitChar d1 = Nat.digitChar d2 → d1 = d2 := by
  decide

/-- The decimal rendering contains no underscore. -/
theorem decRepr_no_underscore (n : Nat) :
    '_' ∉ (ARWebViewBridge.decRepr n).data := by
  unfold ARWebViewBridge.decRepr
  by_cases h : n = 0
  · subst h
    decide
  · rw [if_neg h]
    intro hc
    rw [List.mem_reverse] at hc
    rcases List.mem_map.mp hc with ⟨d, hd, hEq⟩
    exact digitChar_ne_underscore d (Nat.digits_lt_base (by norm_num) hd) hEq

/-- map digitChar is injective on lists of digits. -/
theorem map_digitChar_inj : ∀ l1 l2 : List Nat,
    (∀ d ∈ l1, d < 10) → (∀ d ∈ l2, d < 10) →
    l1.map Nat.digitChar = l2.map Nat.digitChar → l1 = l2 := by
  intro l1
  induction l1 with
  | nil =>
      intro l2 _ _ h
      cases l2 with
      | nil => rfl
      | cons b u => simp at h
  | cons a t ih =>
      intro l2 h1 h2 h
      cases l2 with
      | nil => simp at h
      | cons b u =>
          simp only [List.map_cons, List.cons.injEq] at h
          have ha : a = b :=
            digitChar_inj_below a (h1 a (List.mem_cons_self a t)) b
              (h2 b (List.mem_cons_self b u)) h.1
          have ht := ih u (fun d hd => h1 d (List.mem_cons_of_mem a hd))
            (fun d hd => h2 d (List.mem_cons_of_mem b hd)) h.2
          rw [ha, ht]

/-- The decimal rendering is injective (on the character data). -/
theorem decRepr_data_inj (a b : Nat)
    (h : (ARWebViewBridge.decRepr a).data = (ARWebViewBridge.decRepr b).data) :
    a = b := by
  have hbound : ∀ m : Nat, ∀ d ∈ Nat.digits 10 m, d < 10 := fun m d hd =>
    Nat.digits_lt_base (by norm_num) hd
  unfold ARWebViewBridge.decRepr at h
  by_cases ha : a = 0 <;> by_cases hb : b = 0
  · rw [ha, hb]
  · rw [if_pos ha, if_neg hb] at h
    have hrev := congrArg List.reverse h
    simp only [List.reverse_reverse] at hrev
    have hmap : (Nat.digits 10 b).map Nat.digitChar = [Nat.digitChar 0] := by
      rw [← hrev]
      decide
    have hdig : Nat.digits 10 b = [0] :=
      map_digitChar_inj (Nat.digits 10 b) [0] (hbound b)
        (by intro d hd; simp at hd; omega) hmap
    have hzero : b = 0 := by
      have := Nat.ofDigits_digits 10 b
      rw [hdig] at this
      simpa [Nat.ofDigits] using this.symm
    exact absurd hzero hb
  · rw [if_neg ha, if_pos hb] at h
    have hrev := congrArg List.reverse h
    simp only [List.reverse_reverse] at hrev
    have hmap : (Nat.digits 10 a).map Nat.digitChar = [Nat.digitChar 0] := by
      rw [hrev]
      decide
    have hdig : Nat.digits 10 a = [0] :=
      map_digitChar_inj (Nat.digits 10 a) [0] (hbound a)
        (by intro d hd; simp at hd; omega) hmap
    have hzero : a = 0 := by
      have := Nat.ofDigits_digits 10 a
      rw [hdig] at this
      simpa [Nat.ofDigits] using this.symm
    exact absurd hzero ha
  · rw [if_neg ha, if_neg hb] at h
    have hrev := congrArg List.reverse h
    simp only [List.reverse_reverse] at hrev
    have hdig := map_digitChar_inj (Nat.digits 10 a) (Nat.digits 10 b)
      (hbound a) (hbound b) hrev
    have := congrArg (Nat.ofDigits 10) hdig
    rwa [Nat.ofDigits_digits, Nat.ofDigits_digits] at this

/-- Equal character lists split identically at the first underscore
when their heads are underscore-free. -/
theorem underscore_head_eq : ∀ r1 r2 m1 m2 : List Char,
    '_' ∉ r1 → '_' ∉ r2 →
    r1 ++ '_' :: m1 = r2 ++ '_' :: m2 →
    r1 = r2 ∧ m1 = m2 := by
  intro r1
  induction r1 with
  | nil =>
      intro r2 m1 m2 _ h2 h
      cases r2 with
      | nil =>
          simp only [List.nil_append, List.cons.injEq] at h
          exact ⟨rfl, h.2⟩
      | cons c u =>
          simp only [List.nil_append, List.cons_append, List.cons.injEq] at h
          exact absurd (by rw [h.1]; exact List.mem_cons_self c u) h2
  | cons a t ih =>
      intro r2 m1 m2 h1 h2 h
      cases r2 with
      | nil =>
          simp only [List.cons_append, List.nil_append, List.cons.injEq] at h
          exact absurd (by rw [← h.1]; exact List.mem_cons_self a t) h1
      | cons b u =>
          simp only [List.cons_append, List.cons.injEq] at h
          have hat : '_' ∉ t := fun hc => h1 (List.mem_cons_of_mem a hc)
          have hbu : '_' ∉ u := fun hc => h2 (List.mem_cons_of_mem b hc)
          obtain ⟨hr, hm⟩ := ih u m1 m2 hat hbu h.2
          exact ⟨by rw [h.1, hr], hm⟩

/-- The counter component determines the generated message id: equal ids
mean equal counters. -/
theorem generateMessageId_counter_inj (t1 t2 c1 c2 : Nat)
    (h : (ARWebViewBridge.generateMessageId t1 c1).1 =
      (ARWebViewBridge.generateMessageId t2 c2).1) : c1 = c2 := by
  have hd := congrArg String.data h
  simp only [ARWebViewBridge.generateMessageId, String.data_append] at hd
  have hrev := congrArg List.reverse hd
  simp only [List.reverse_append, List.reverse_cons, List.reverse_nil,
    List.nil_append, List.append_assoc, List.cons_append] at hrev
  have hr1 : '_' ∉ (ARWebViewBridge.decRepr (c1 + 1)).data.reverse := by
    rw [List.mem_reverse]
    exact decRepr_no_underscore (c1 + 1)
  have hr2 : '_' ∉ (ARWebViewBridge.decRepr (c2 + 1)).data.reverse := by
    rw [List.mem_reverse]
    exact decRepr_no_underscore (c2 + 1)
  obtain ⟨hr, _⟩ := underscore_head_eq _ _ _ _ hr1 hr2 hrev
  have hdata : (ARWebViewBridge.decRepr (c1 + 1)).data =
      (ARWebViewBridge.decRepr (c2 + 1)).data := by
    have := congrArg List.reverse hr
    simpa using this
  have := decRepr_data_inj (c1 + 1) (c2 + 1) hdata
  omega

/-- Step equation for sequential generations. -/
theorem genMessageIds_succ (clock : Nat → Nat) (n c : Nat) :
    ARWebViewBridge.genMessageIds clock (n + 1) c =
      (ARWebViewBridge.generateMessageId (clock c) c).1 ::
        ARWebViewBridge.genMessageIds clock n (c + 1) := rfl

/-- Every id in a run of generations carries a counter above the start
counter. -/
theorem genMessageIds_mem_shape (clock : Nat → Nat) :
    ∀ n c : Nat, ∀ s ∈ ARWebViewBridge.genMessageIds clock n c,
      ∃ t k, c ≤ k ∧ s = (ARWebViewBridge.generateMessageId t k).1 := by
  intro n
  induction n with
  | zero =>
      intro c s hs
      simp [ARWebViewBridge.genMessageIds] at hs
  | succ m ih =>
      intro c s hs
      rw [genMessageIds_succ] at hs
      rcases List.mem_cons.mp hs with rfl | htail
      · exact ⟨clock c, c, le_refl c, rfl⟩
      · obtain ⟨t, k, hk, hEq⟩ := ih (c + 1) s htail
        exact ⟨t, k, by omega, hEq⟩

/-- Any run of sequential generations yields pairwise distinct ids. -/
theorem genMessageIds_pairwise (clock : Nat → Nat) :
    ∀ n c : Nat,
      (ARWebViewBridge.genMessageIds clock n c).Pairwise (fun a b => a ≠ b) := by
  intro n
  induction n with
  | zero =>
      intro c
      simp [ARWebViewBridge.genMessageIds]
  | succ m ih =>
      intro c
      rw [genMessageIds_succ]
      refine List.Pairwise.cons ?_ (ih (c + 1))
      intro b hb hEq
      obtain ⟨t, k, hk, rfl⟩ := genMessageIds_mem_shape clock m (c + 1) b hb
      have := generateMessageId_counter_inj (clock c) t c k hEq
      omega

/-- C8: each generation increments the monotonic per-instance counter;
ids generated at distinct counters are unequal — whatever the clock
reads — and every run of sequential generations (in particular 10 000
sends) yields pairwise distinct message ids. -/
theorem messageIds_unique :
    (∀ now c, (ARWebViewBridge.generateMessageId now c).2 = c + 1) ∧
    (∀ t1 t2 c1 c2, c1 ≠ c2 →
      (ARWebViewBridge.generateMessageId t1 c1).1 ≠
        (ARWebViewBridge.generateMessageId t2 c2).1) ∧
    (∀ clock n c,
      (ARWebViewBridge.genMessageIds clock n c).Pairwise (fun a b => a ≠ b)) := by
  refine ⟨fun _ _ => rfl, ?_, fun clock n c => genMessageIds_pairwise clock n c⟩
  intro t1 t2 c1 c2 hne hEq
  exact hne (generateMessageId_counter_inj t1 t2 c1 c2 hEq)

/-- Witness for C8: two generations at the same clock reading still
produce different ids. -/
theorem messageIds_unique_witness :
    (ARWebViewBridge.generateMessageId 0 0).2 = 1 ∧
    (ARWebViewBridge.generateMessageId 5 0).1 ≠
      (ARWebViewBridge.generateMessageId 5 1).1 := by
  have h := messageIds_unique
  exact ⟨h.1 0 0, h.2.1 5 5 0 1 (by decide)⟩

end RoomDesigner
